import Mathlib

/-!
Verification of the jolt_zkml crate of the rugdetector repository.

The embedding below mirrors the compiled code of src/jolt_zkml/src/lib.rs and
src/jolt_zkml/src/main.rs. Large portions of the source are present only as
commented-out text (the Jolt Atlas proving pipeline); those parts are not
compiled code and are therefore absent here, exactly as they are absent from
the built binary. The live code is: the error enum and its Display impl, the
RugDetectorZKML struct and its new / preprocess / prove / verify methods, and
the CLI dispatcher with its four handlers.

Side effects are made explicit: a handler is modelled as the list of lines it
writes to standard output, the list of lines it writes to standard error, and
its Result value; the process entry point turns a handler failure into a JSON
error line on standard error plus exit code 1. Reading standard input and
serde_json parsing are external-library behaviour and are modelled as
parameters quantified over in the theorems.
-/

/-- The ZKMLError enum from src/jolt_zkml/src/lib.rs. Note that the enum has
no DeserializationError variant. -/
inductive ZKMLError where
  | NotPreprocessed : ZKMLError
  | NotImplemented : ZKMLError
  | InvalidInput : String → ZKMLError
  | TensorError : String → ZKMLError
  | VerificationError : String → ZKMLError
deriving DecidableEq, Repr

/-- The Display impl for ZKMLError from src/jolt_zkml/src/lib.rs. -/
def ZKMLError.toString : ZKMLError → String
  | .NotPreprocessed => "Model not preprocessed"
  | .NotImplemented => "Jolt Atlas integration not built yet (requires network to fetch dependencies)"
  | .InvalidInput msg => "Invalid input: " ++ msg
  | .TensorError e => "Tensor error: " ++ e
  | .VerificationError e => "Verification failed: " ++ e

/-- The ProofResult struct from src/jolt_zkml/src/lib.rs: in the compiled
code every field is commented out, so it is an empty struct. -/
structure ProofResult where
deriving DecidableEq, Repr

/-- The RugDetectorZKML struct from src/jolt_zkml/src/lib.rs: its only
compiled field is model_path (the preprocessing field is commented out). -/
structure RugDetectorZKML where
  model_path : String
deriving DecidableEq, Repr

/-- RugDetectorZKML::new from src/jolt_zkml/src/lib.rs. -/
def RugDetectorZKML.new (model_path : String) : RugDetectorZKML :=
  ⟨model_path⟩

/-- RugDetectorZKML::preprocess from src/jolt_zkml/src/lib.rs. The compiled
body only writes two warning lines to standard error; it does not touch the
struct. Modelled as the pair of the resulting struct state and the lines
written to standard error. -/
def RugDetectorZKML.preprocess (self : RugDetectorZKML) : RugDetectorZKML × List String :=
  (self,
   ["⚠️  Preprocessing requires Jolt Atlas dependencies",
    "    See JOLT_ATLAS_INTEGRATION.md for build instructions"])

/-- RugDetectorZKML::prove from src/jolt_zkml/src/lib.rs. The compiled body
is the feature-count guard followed by the placeholder error; everything
between them (preprocessing lookup, tensor construction, tracing, SNARK
proving) is commented out. -/
def RugDetectorZKML.prove (_self : RugDetectorZKML) (features : List Int) :
    Except ZKMLError ProofResult :=
  if features.length ≠ 60 then
    .error (.InvalidInput ("Expected 60 features, got " ++ ToString.toString features.length))
  else
    .error .NotImplemented

/-- RugDetectorZKML::verify from src/jolt_zkml/src/lib.rs. The compiled body
ignores all three byte-string arguments and returns the placeholder error;
the deserialization and cryptographic check are commented out. -/
def RugDetectorZKML.verify (_proof : List Nat) (_verifying_key : List Nat)
    (_output : List Nat) : Except ZKMLError Bool :=
  .error .NotImplemented

/-- The Commands enum from src/jolt_zkml/src/main.rs: the four CLI
subcommands, two of which carry a model path. -/
inductive Commands where
  | Preprocess : String → Commands
  | Prove : String → Commands
  | Verify : Commands
  | Version : Commands
deriving DecidableEq, Repr

/-- The ProveInput struct from src/jolt_zkml/src/main.rs. -/
structure ProveInput where
  features : List Int
deriving DecidableEq, Repr

/-- Result of running one CLI handler: the lines it printed to standard
output, the lines it printed to standard error, and its Rust Result value
(Ok, or Err with the error message produced by Display). -/
structure HandlerResult where
  stdout : List String
  stderr : List String
  result : Except String Unit
deriving Repr

/-- One hexadecimal digit, lowercase, as used by serde_json for control
character escapes. -/
def hexDigit (n : Nat) : Char :=
  if n < 10 then Char.ofNat (48 + n) else Char.ofNat (87 + n)

/-- JSON string escaping of one character as performed by serde_json when
serializing the ErrorOutput struct in src/jolt_zkml/src/main.rs. -/
def jsonEscapeChar (c : Char) : String :=
  if c = '"' then "\\\""
  else if c = '\\' then "\\\\"
  else if c = '\x08' then "\\b"
  else if c = '\x09' then "\\t"
  else if c = '\x0a' then "\\n"
  else if c = '\x0c' then "\\f"
  else if c = '\x0d' then "\\r"
  else if c.toNat < 32 then
    "\\u00" ++ String.singleton (hexDigit (c.toNat / 16)) ++
      String.singleton (hexDigit (c.toNat % 16))
  else String.singleton c

/-- A JSON string literal with serde_json escaping. -/
def jsonString (s : String) : String :=
  "\"" ++ String.join (s.toList.map jsonEscapeChar) ++ "\""

/-- serde_json::to_string of the ErrorOutput struct from
src/jolt_zkml/src/main.rs: a one-field JSON object whose key is error. -/
def errorOutputJson (e : String) : String :=
  "\x7b\"error\":" ++ jsonString e ++ "\x7d"

/-- handle_preprocess from src/jolt_zkml/src/main.rs: builds the instance,
calls preprocess (which writes warnings to standard error), prints the
status object to standard output, and returns Ok. -/
def handle_preprocess (model : String) : HandlerResult :=
  let zkml := RugDetectorZKML.new model
  let pe := zkml.preprocess
  { stdout := ["\x7b\"status\": \"preprocessed\"\x7d"],
    stderr := pe.2,
    result := .ok () }

/-- handle_prove from src/jolt_zkml/src/main.rs. Reading standard input and
serde_json parsing are external behaviour, passed in as stdinData (the read
outcome) and parse (the serde_json::from_str outcome on the read string).
The body mirrors the source: read, parse, length guard, preprocess, prove;
the Ok branch of prove (dead in the compiled code) prints a warning to
standard error and fails, the Err branch propagates the Display message. -/
def handle_prove (parse : String → Except String ProveInput)
    (stdinData : Except String String) (model : String) : HandlerResult :=
  match stdinData with
  | .error e => { stdout := [], stderr := [], result := .error e }
  | .ok input =>
    match parse input with
    | .error e => { stdout := [], stderr := [], result := .error e }
    | .ok prove_input =>
      if prove_input.features.length ≠ 60 then
        { stdout := [], stderr := [],
          result := .error ("Expected 60 features, got " ++
            ToString.toString prove_input.features.length) }
      else
        let zkml := RugDetectorZKML.new model
        let pe := zkml.preprocess
        match pe.1.prove prove_input.features with
        | .ok _ =>
          { stdout := [],
            stderr := pe.2 ++ ["⚠️  Proof generation requires Jolt Atlas dependencies"],
            result := .error "Not implemented: requires network to fetch dependencies" }
        | .error e =>
          { stdout := [], stderr := pe.2, result := .error e.toString }

/-- handle_verify from src/jolt_zkml/src/main.rs: reads standard input
(modelled as stdinData), then unconditionally writes a warning to standard
error and fails; the verification logic is commented out. -/
def handle_verify (stdinData : Except String String) : HandlerResult :=
  match stdinData with
  | .error e => { stdout := [], stderr := [], result := .error e }
  | .ok _ =>
    { stdout := [],
      stderr := ["⚠️  Verification requires Jolt Atlas dependencies"],
      result := .error "Not implemented: requires network to fetch dependencies" }

/-- handle_version from src/jolt_zkml/src/main.rs: prints a static JSON
descriptor, one println per line, and returns Ok. -/
def handle_version : HandlerResult :=
  { stdout :=
      ["\x7b",
       "  \"name\": \"jolt_zkml_cli\",",
       "  \"version\": \"0.1.0\",",
       "  \"description\": \"Jolt Atlas zkML CLI for RugDetector\",",
       "  \"status\": \"skeleton - requires dependencies\",",
       "  \"dependencies_required\": [",
       "    \"https://github.com/ICME-Lab/jolt-atlas\",",
       "    \"https://github.com/ICME-Lab/zkml-jolt\"",
       "  ]",
       "\x7d"],
    stderr := [],
    result := .ok () }

/-- The match over cli.command in main of src/jolt_zkml/src/main.rs. -/
def handlerOf (parse : String → Except String ProveInput)
    (stdinData : Except String String) : Commands → HandlerResult
  | .Preprocess model => handle_preprocess model
  | .Prove model => handle_prove parse stdinData model
  | .Verify => handle_verify stdinData
  | .Version => handle_version

/-- Observable outcome of one process run: standard output lines, standard
error lines, and the exit code. -/
structure ProcessResult where
  stdout : List String
  stderr : List String
  exitCode : Nat
deriving DecidableEq, Repr

/-- main from src/jolt_zkml/src/main.rs: dispatches to the handler, and on
Err serializes the ErrorOutput struct to standard error and exits with
code 1; on Ok the process exits with code 0. -/
def mainRun (parse : String → Except String ProveInput)
    (stdinData : Except String String) (command : Commands) : ProcessResult :=
  let r := handlerOf parse stdinData command
  match r.result with
  | .error e =>
    { stdout := r.stdout, stderr := r.stderr ++ [errorOutputJson e], exitCode := 1 }
  | .ok _ =>
    { stdout := r.stdout, stderr := r.stderr, exitCode := 0 }

/-- Helper: whenever the dispatched handler fails, it has written nothing to
standard output. Shared by the claim about the CLI error contract. -/
theorem handler_error_stdout_empty (parse : String → Except String ProveInput)
    (stdinData : Except String String) (command : Commands) (e : String)
    (h : (handlerOf parse stdinData command).result = Except.error e) :
    (handlerOf parse stdinData command).stdout = [] := by
  cases command with
  | Preprocess model => simp [handlerOf, handle_preprocess] at h
  | Prove model =>
    cases stdinData with
    | error e₀ => rfl
    | ok s =>
      cases hp : parse s with
      | error e₀ => simp [handlerOf, handle_prove, hp]
      | ok pin =>
        by_cases hl : pin.features.length = 60
        · simp [handlerOf, handle_prove, hp, hl, RugDetectorZKML.preprocess,
            RugDetectorZKML.prove]
        · simp [handlerOf, handle_prove, hp, hl]
  | Verify => cases stdinData <;> rfl
  | Version => simp [handlerOf, handle_version] at h

/-- C1: the spec claims a full completeness round trip (preprocess succeeds,
prove returns a proof plus output, verify accepts). In the compiled code,
prove on the 60-element all-zero witness returns Err(NotImplemented) even
after preprocess, and verify returns Err(NotImplemented) on any bytes: the
proving pipeline exists only as commented-out code, so no round trip exists. -/
theorem prove_roundtrip_fails_not_implemented :
    ((RugDetectorZKML.new "model.onnx").preprocess).1.prove (List.replicate 60 0) =
      Except.error ZKMLError.NotImplemented ∧
    RugDetectorZKML.verify [] [] [] = Except.error ZKMLError.NotImplemented :=
  ⟨rfl, rfl⟩

/-- C2: for every instance and every features vector whose length is not 60,
prove fails with the InvalidInput error carrying the formatted message. The
length guard is the first statement of prove; no tracer exists in the
compiled code (tracing appears only inside comments), so no tracing work can
precede or follow the guard. -/
theorem prove_rejects_wrong_length (z : RugDetectorZKML) (features : List Int)
    (h : features.length ≠ 60) :
    z.prove features = Except.error (ZKMLError.InvalidInput
      ("Expected 60 features, got " ++ ToString.toString features.length)) := by
  simp [RugDetectorZKML.prove, h]

/-- Witness for C2 at the concrete input from the repository test: a
3-element features vector. -/
theorem prove_rejects_wrong_length_witness :
    ([1, 2, 3] : List Int).length ≠ 60 ∧
    (RugDetectorZKML.new "test.onnx").prove [1, 2, 3] =
      Except.error (ZKMLError.InvalidInput
        ("Expected 60 features, got " ++ ToString.toString ([1, 2, 3] : List Int).length)) :=
  ⟨by decide, prove_rejects_wrong_length (RugDetectorZKML.new "test.onnx") [1, 2, 3] (by decide)⟩

/-- C3: the spec claims prove on a never-preprocessed instance fails with
NotPreprocessedError. In the compiled code the struct has no preprocessing
field and prove never returns ZKMLError.NotPreprocessed: on a fresh instance
with a valid 60-element witness it returns Err(NotImplemented). -/
theorem prove_without_preprocess_not_implemented :
    (RugDetectorZKML.new "test.onnx").prove (List.replicate 60 0) =
      Except.error ZKMLError.NotImplemented :=
  rfl

/-- C4: the spec claims malformed bytes at the verify boundary yield a
distinct DeserializationError. In the compiled code verify returns
Err(NotImplemented) on garbage bytes (and the ZKMLError enum has no
DeserializationError variant at all). -/
theorem verify_garbage_not_deserialization_error :
    RugDetectorZKML.verify [0] [] [] = Except.error ZKMLError.NotImplemented :=
  rfl

/-- C5: verify is deterministic: two calls on equal byte-string triples
return the same result. The compiled verify reads no mutable state and
performs no IO, so it is modelled as a pure function of its arguments. -/
theorem verify_deterministic (p₁ k₁ o₁ p₂ k₂ o₂ : List Nat)
    (hp : p₁ = p₂) (hk : k₁ = k₂) (ho : o₁ = o₂) :
    RugDetectorZKML.verify p₁ k₁ o₁ = RugDetectorZKML.verify p₂ k₂ o₂ := by
  rw [hp, hk, ho]

/-- Witness for C5 at concrete byte strings. -/
theorem verify_deterministic_witness :
    ([0, 1] : List Nat) = [0, 1] ∧ ([2] : List Nat) = [2] ∧ ([3] : List Nat) = [3] ∧
    RugDetectorZKML.verify [0, 1] [2] [3] = RugDetectorZKML.verify [0, 1] [2] [3] :=
  ⟨rfl, rfl, rfl, verify_deterministic [0, 1] [2] [3] [0, 1] [2] [3] rfl rfl rfl⟩

/-- C6: for every subcommand and every environment (standard-input outcome
and parse outcome), whenever the dispatched handler fails with message e,
the process exits with code 1 (non-zero), the serde_json serialization of
the ErrorOutput object for e is emitted on standard error, and standard
output is empty. -/
theorem cli_error_contract (parse : String → Except String ProveInput)
    (stdinData : Except String String) (command : Commands) (e : String)
    (h : (handlerOf parse stdinData command).result = Except.error e) :
    (mainRun parse stdinData command).exitCode = 1 ∧
    errorOutputJson e ∈ (mainRun parse stdinData command).stderr ∧
    (mainRun parse stdinData command).stdout = [] := by
  have hst := handler_error_stdout_empty parse stdinData command e h
  refine ⟨?_, ?_, ?_⟩ <;> simp [mainRun, h, hst]

/-- Witness for C6: the prove subcommand with a standard input whose JSON
parse fails. -/
theorem cli_error_contract_witness :
    (handlerOf (fun _ => Except.error "bad json") (Except.ok "")
      (Commands.Prove "model.onnx")).result = Except.error "bad json" ∧
    ((mainRun (fun _ => Except.error "bad json") (Except.ok "")
        (Commands.Prove "model.onnx")).exitCode = 1 ∧
      errorOutputJson "bad json" ∈ (mainRun (fun _ => Except.error "bad json")
        (Except.ok "") (Commands.Prove "model.onnx")).stderr ∧
      (mainRun (fun _ => Except.error "bad json") (Except.ok "")
        (Commands.Prove "model.onnx")).stdout = []) :=
  ⟨rfl, cli_error_contract (fun _ => Except.error "bad json") (Except.ok "")
    (Commands.Prove "model.onnx") "bad json" rfl⟩

/-- C7: for every model path and every environment, the preprocess
subcommand prints exactly the status JSON object as its only standard-output
line and the process exits with code 0. -/
theorem preprocess_subcommand_output (parse : String → Except String ProveInput)
    (stdinData : Except String String) (model : String) :
    (mainRun parse stdinData (Commands.Preprocess model)).stdout =
      ["\x7b\"status\": \"preprocessed\"\x7d"] ∧
    (mainRun parse stdinData (Commands.Preprocess model)).exitCode = 0 :=
  ⟨rfl, rfl⟩

/-- C8: for every triple of byte strings, verify returns
Err(ZKMLError.NotImplemented); in particular it never returns Ok true or
Ok false, so the verifier as implemented never accepts or explicitly
rejects any proof. -/
theorem verify_always_not_implemented (proof verifying_key output : List Nat) :
    RugDetectorZKML.verify proof verifying_key output =
      Except.error ZKMLError.NotImplemented :=
  rfl

/-- C9: preprocess leaves the instance unchanged (its only field,
model_path, is preserved; in fact the whole struct is returned as-is), and
a subsequent prove returns the same result whether or not preprocess ran
first. -/
theorem preprocess_frame (z : RugDetectorZKML) (features : List Int) :
    (z.preprocess).1 = z ∧ (z.preprocess).1.prove features = z.prove features :=
  ⟨rfl, rfl⟩

/-- C10: the result of prove does not depend on the model path: instances
constructed from any two model paths return the same result on every
features vector. -/
theorem prove_model_path_independent (p₁ p₂ : String) (features : List Int) :
    (RugDetectorZKML.new p₁).prove features = (RugDetectorZKML.new p₂).prove features :=
  rfl
